import Mathlib

/-!
LuckyBet backend: store queries, cached leaderboard and the benchmark bet handler.

A shallow embedding of `database/db.go` and `handler/lucky_bet_robot.go`.

* The document store (the mgo driver talking to MongoDB) is an external
  collaborator.  It is modelled by an executable interpreter over lists of
  documents: `Collection`, `Query`, `Pipe`.  The Go code is transcribed against
  that interpreter literally: the filters, sort keys and pipeline stages below are
  the literals of the source.
* Go `int` and `int64` are `Int`.  Times and durations are nanoseconds.
* Methods of `luckyBetHandler` whose bodies live in another file of the handler
  package (`checkArgs`, `checkBalance`, `send`, `pullResult`) are parameters.
-/

namespace LuckyBet

/-! ## BSON values and documents -/

/-- A BSON value as the Go code sees it once mgo has decoded it into an
`interface{}`: a BSON int32 arrives as Go `int`, a BSON int64 as Go `int64`,
a string as `string`; `strs` is an array of strings (only used in filters). -/
inductive Value
  | null
  | int (n : Int)
  | int64 (n : Int)
  | str (s : String)
  | strs (l : List String)
  deriving DecidableEq, Repr

/-- A document: field name / value pairs (`bson.M`, or a marshalled struct). -/
abbrev Doc := List (String × Value)

/-- Field lookup, `mr["k"]`; `none` is an absent field. -/
def Doc.get (d : Doc) (k : String) : Option Value := d.lookup k

/-- Whether `n` fits a BSON int32. -/
def fitsInt32 (n : Int) : Bool := decide (-2147483648 ≤ n) && decide (n ≤ 2147483647)

/-- How mgo marshals a Go `int`: as int32 when it fits, as int64 otherwise. -/
def goInt (n : Int) : Value := if fitsInt32 n then .int n else .int64 n

/-- How mgo marshals a Go `int64`: always as BSON int64. -/
def goInt64 (n : Int) : Value := .int64 n

/-- The number held by a numeric value. -/
def Value.num? : Value → Option Int
  | .int n => some n
  | .int64 n => some n
  | _ => none

/-- Whether the value is a BSON int64. -/
def Value.isInt64 : Value → Bool
  | .int64 _ => true
  | _ => false

/-- MongoDB comparison order of the values of the model, by type bracket
(null, then numbers, then strings, then arrays) and by value inside a bracket. -/
def Value.rank : Value → Nat
  | .null => 0
  | .int _ => 1
  | .int64 _ => 1
  | .str _ => 2
  | .strs _ => 3

/-- The order `$sort` uses on the values of a field (an absent field sorts as null). -/
def Value.le (a b : Value) : Bool :=
  match a.num?, b.num? with
  | some x, some y => decide (x ≤ y)
  | _, _ =>
    match a, b with
    | .str s, .str t => decide (s ≤ t)
    | _, _ => decide (a.rank ≤ b.rank)

/-- Equality as a query sees it: numbers by value whatever their width. -/
def Value.same (a b : Value) : Bool :=
  match a.num?, b.num? with
  | some x, some y => decide (x = y)
  | _, _ => decide (a = b)

/-! ## Query filters -/

/-- The condition a filter puts on one field: a plain value (equality) or an
operator sub-document such as `bson.M{"$gte": 1}`. -/
inductive Cond
  | eq (v : Value)
  | ops (l : List (String × Value))
  deriving DecidableEq, Repr

/-- A filter document, `bson.M{field: condition, ...}`. -/
abbrev Filter := List (String × Cond)

/-- The query operators of the model, with MongoDB semantics: a comparison
matches only inside one type bracket and never matches an absent field,
`$nin` and `$ne` match an absent field.  Any other operator name is rejected
by the server. -/
def evalOp (op : String) (arg : Value) (field : Option Value) : Except String Bool :=
  let cmp (f : Int → Int → Bool) (g : String → String → Bool) : Bool :=
    match field with
    | none => false
    | some v =>
      match v.num?, arg.num? with
      | some x, some y => f x y
      | _, _ =>
        match v, arg with
        | .str s, .str t => g s t
        | _, _ => false
  let mem (l : List String) : Bool :=
    match field with
    | some (.str s) => decide (s ∈ l)
    | _ => false
  if op = "$eq" then .ok ((field.getD .null).same arg)
  else if op = "$ne" then .ok (!(field.getD .null).same arg)
  else if op = "$gt" then .ok (cmp (fun x y => decide (y < x)) (fun s t => decide (t < s)))
  else if op = "$gte" then .ok (cmp (fun x y => decide (y ≤ x)) (fun s t => decide (t ≤ s)))
  else if op = "$lt" then .ok (cmp (fun x y => decide (x < y)) (fun s t => decide (s < t)))
  else if op = "$lte" then .ok (cmp (fun x y => decide (x ≤ y)) (fun s t => decide (s ≤ t)))
  else if op = "$in" then
    match arg with
    | .strs l => .ok (mem l)
    | _ => .error "$in needs an array"
  else if op = "$nin" then
    match arg with
    | .strs l => .ok (!mem l)
    | _ => .error "$nin needs an array"
  else .error ("unknown operator: " ++ op)

/-- All operators of a sub-document must hold; the first rejected one is the error. -/
def evalOps : List (String × Value) → Option Value → Except String Bool
  | [], _ => .ok true
  | (op, arg) :: rest, field =>
    match evalOp op arg field with
    | .error e => .error e
    | .ok b =>
      match evalOps rest field with
      | .error e => .error e
      | .ok c => .ok (b && c)

/-- One field condition against a document. -/
def Cond.eval (c : Cond) (field : Option Value) : Except String Bool :=
  match c with
  | .eq v => .ok ((field.getD .null).same v)
  | .ops l => evalOps l field

/-- A whole filter against a document. -/
def Filter.eval : Filter → Doc → Except String Bool
  | [], _ => .ok true
  | (k, c) :: rest, d =>
    match c.eval (d.get k) with
    | .error e => .error e
    | .ok b =>
      match Filter.eval rest d with
      | .error e => .error e
      | .ok r => .ok (b && r)

/-- The server parses a filter before it looks at any document: a filter with a
rejected operator fails even on an empty collection.  Parsing is modelled by
evaluating the filter on the empty document. -/
def Filter.check (f : Filter) : Except String Unit :=
  match f.eval [] with
  | .error e => .error e
  | .ok _ => .ok ()

/-- Whether a document matches a parsed filter. -/
def Filter.holds (f : Filter) (d : Doc) : Bool :=
  match f.eval d with
  | .ok b => b
  | .error _ => false

/-! ## Collections and queries -/

/-- A collection: its documents in insertion order, and the fault (if any) that
makes every operation on it fail, e.g. a lost connection. -/
structure Collection where
  docs : List Doc
  fault : Option String
  deriving DecidableEq, Repr

/-- The driver call `c.Insert(doc)`: the error it returns and the collection after it. -/
def Collection.Insert (c : Collection) (doc : Doc) : Option String × Collection :=
  match c.fault with
  | some e => (some e, c)
  | none => (none, { c with docs := c.docs ++ [doc] })

/-- A query under construction, `c.Find(f).Sort(..).Skip(..).Limit(..)`; `skip`
and `limit` are the 32-bit values sent to the server. -/
structure Query where
  coll : Collection
  filter : Filter
  sort : Option String
  skip : Int
  limit : Int

/-- Driver call `c.Find(f)`. -/
def Collection.Find (c : Collection) (f : Filter) : Query :=
  { coll := c, filter := f, sort := none, skip := 0, limit := 0 }

/-- Driver call `q.Sort(field)`; a leading `-` asks for descending order. -/
def Query.Sort (q : Query) (field : String) : Query := { q with sort := some field }

/-- Go's conversion `int32(n)` of an `int`: the low 32 bits, read as signed. -/
def int32 (n : Int) : Int := (n + 2147483648) % 4294967296 - 2147483648

/-- Driver call `q.Skip(n)`: the driver sends `int32(n)`. -/
def Query.Skip (q : Query) (n : Int) : Query := { q with skip := int32 n }

/-- The limit the driver sends for `q.Limit(n)`: `-1` for 1, `MinInt32 + 1` for
`MinInt32`, `int32(n)` otherwise.  The server returns at most the absolute
value of a non-zero limit. -/
def wireLimit (n : Int) : Int :=
  if n = 1 then -1 else if n = -2147483648 then -2147483647 else int32 n

/-- Driver call `q.Limit(n)`. -/
def Query.Limit (q : Query) (n : Int) : Query := { q with limit := wireLimit n }

/-- Sort key of a document. -/
def sortKey (field : String) (d : Doc) : Value := (d.get field).getD .null

/-- Stable sort of documents on one field, ascending or descending. -/
def sortDocs (field : String) (descending : Bool) (docs : List Doc) : List Doc :=
  if descending then
    docs.insertionSort (fun a b => (sortKey field b).le (sortKey field a) = true)
  else
    docs.insertionSort (fun a b => (sortKey field a).le (sortKey field b) = true)

/-- The sort specification of the driver: `"-bettime"` is `bettime` descending. -/
def applySort (spec : Option String) (docs : List Doc) : List Doc :=
  match spec with
  | none => docs
  | some s =>
    match s.data with
    | '-' :: cs => sortDocs (String.mk cs) true docs
    | _ => sortDocs s false docs

/-- The documents a query selects, in order, before skip and limit. -/
def Query.selected (q : Query) : Except String (List Doc) :=
  match q.coll.fault with
  | some e => .error e
  | none =>
    match q.filter.check with
    | .error e => .error e
    | .ok _ => .ok (applySort q.sort (q.coll.docs.filter q.filter.holds))

/-- Driver call `q.All(&out)`: the selected documents after skip and limit
(limit 0 is no limit, a negative skip is rejected by the server). -/
def Query.All (q : Query) : Except String (List Doc) :=
  match q.selected with
  | .error e => .error e
  | .ok docs =>
    if q.skip < 0 then .error "bad skip value"
    else
      let rest := docs.drop q.skip.toNat
      .ok (if q.limit = 0 then rest else rest.take q.limit.natAbs)

/-- Driver call `q.One(&out)`: the first selected document, or `not found`. -/
def Query.One (q : Query) : Except String Doc :=
  match q.All with
  | .error e => .error e
  | .ok [] => .error "not found"
  | .ok (d :: _) => .ok d

/-- Driver call `q.Count()`. -/
def Query.Count (q : Query) : Except String Int :=
  match q.All with
  | .error e => .error e
  | .ok docs => .ok docs.length

/-! ## Aggregation pipelines -/

/-- The stages `QueryTop10` uses.  A field path is written without its `$`
sigil: `Group "account" [("totalBet", "bet")]` is
`{"$group": {"_id": "$account", "totalBet": {"$sum": "$bet"}}}`, and
`AddFields n a b` is `{"$addFields": {n: {"$subtract": [a, b]}}}`. -/
inductive Stage
  | Match (f : Filter)
  | Group (id : String) (sums : List (String × String))
  | AddFields (name : String) (minuend : String) (subtrahend : String)
  | Sort (field : String) (dir : Int)
  | Limit (n : Nat)
  deriving DecidableEq, Repr

/-- The `$sum` accumulator: non-numeric and absent operands are ignored; the
result has the widest type among its operands, an int64 as soon as one operand
is, otherwise an int32 while the total fits one.  In particular the sum over
no numeric operand is the int32 `0`.  (This is the typing `QueryTop10` relies
on when it asserts `.(int)` on the sum of the `int` field `times` and
`.(int64)` on the sums of the `int64` fields `reward` and `bet`.) -/
def sumValues (vs : List (Option Value)) : Value :=
  let nums := vs.filterMap (fun v => v.bind Value.num?)
  let total := nums.sum
  if vs.any (fun v => (v.getD .null).isInt64) then .int64 total else goInt total

/-- The `$subtract` expression on two fields: null when an operand is null or
absent, a number typed like `$sum` types it when both are numbers. -/
def subtractValues (a b : Option Value) : Except String Value :=
  match a.getD .null, b.getD .null with
  | .null, _ => .ok .null
  | _, .null => .ok .null
  | x, y =>
    match x.num?, y.num? with
    | some m, some n => .ok (if x.isInt64 || y.isInt64 then .int64 (m - n) else goInt (m - n))
    | _, _ => .error "cant $subtract non-numeric operands"

/-- The distinct values of a list, each at its first occurrence. -/
def distinctKeys : List Value → List Value
  | [] => []
  | k :: ks => k :: (distinctKeys ks).filter (fun x => decide (x ≠ k))

/-- The `$group` stage: one output document per distinct value of the id
field (an absent id groups under null), groups in order of first occurrence. -/
def groupDocs (id : String) (sums : List (String × String)) (docs : List Doc) : List Doc :=
  (distinctKeys (docs.map (sortKey id))).map fun k =>
    let members := docs.filter (fun d => decide (sortKey id d = k))
    ("_id", k) :: sums.map (fun s => (s.1, sumValues (members.map (fun d => d.get s.2))))

/-- The `$addFields` stage with a `$subtract` expression, on every document. -/
def addFieldDocs (name minuend subtrahend : String) : List Doc → Except String (List Doc)
  | [] => .ok []
  | d :: ds =>
    match subtractValues (d.get minuend) (d.get subtrahend) with
    | .error e => .error e
    | .ok v =>
      match addFieldDocs name minuend subtrahend ds with
      | .error e => .error e
      | .ok rest => .ok ((d.filter (fun kv => decide (kv.1 ≠ name)) ++ [(name, v)]) :: rest)

/-- One stage on the documents flowing through the pipeline. -/
def Stage.run (st : Stage) (docs : List Doc) : Except String (List Doc) :=
  match st with
  | .Match f =>
    match f.check with
    | .error e => .error e
    | .ok _ => .ok (docs.filter f.holds)
  | .Group id sums => .ok (groupDocs id sums docs)
  | .AddFields name a b => addFieldDocs name a b docs
  | .Sort field dir => .ok (sortDocs field (decide (dir < 0)) docs)
  | .Limit n => .ok (docs.take n)

/-- The stages in sequence. -/
def runPipeline : List Stage → List Doc → Except String (List Doc)
  | [], docs => .ok docs
  | st :: rest, docs =>
    match st.run docs with
    | .error e => .error e
    | .ok out => runPipeline rest out

/-- Driver call `c.Pipe(stages).All(&out)`; a failed aggregation delivers no document. -/
def Collection.PipeAll (c : Collection) (stages : List Stage) : Except String (List Doc) :=
  match c.fault with
  | some e => .error e
  | none => runPipeline stages c.docs

/-! ## Records of `database/db.go` and how mgo marshals them

A struct field without a `bson` tag is stored under its lower-cased Go name
(the `json` tags of `Bet` play no part). -/

structure Result where
  Round : Int
  Height : Int
  LuckyNumber : Int
  Total : Int
  Win : Int
  Award : Int
  Time : Int
  deriving DecidableEq, Repr

set_option linter.dupNamespace false in
structure Reward where
  Round : Int
  Account : String
  Reward : Int
  Times : Int
  deriving DecidableEq, Repr

structure Record where
  Round : Int
  Account : String
  Bet : Int
  deriving DecidableEq, Repr

structure BlockInfo where
  Height : Int
  Time : Int
  deriving DecidableEq, Repr

structure Bet where
  Account : String
  LuckyNumber : Int
  BetAmount : Int
  BetTime : Int
  ClientIp : String
  deriving DecidableEq, Repr

structure Top10 where
  Id : String
  TotalWinIOST : Int
  TotalBet : Int
  TotalWinTimes : Int
  NetEarn : Int
  deriving DecidableEq, Repr

def Result.toDoc (r : Result) : Doc :=
  [("round", goInt r.Round), ("height", goInt r.Height), ("luckynumber", goInt r.LuckyNumber),
   ("total", goInt r.Total), ("win", goInt r.Win), ("award", goInt64 r.Award),
   ("time", goInt64 r.Time)]

def Reward.toDoc (r : LuckyBet.Reward) : Doc :=
  [("round", goInt r.Round), ("account", .str r.Account), ("reward", goInt64 r.Reward),
   ("times", goInt r.Times)]

def Record.toDoc (r : Record) : Doc :=
  [("round", goInt r.Round), ("account", .str r.Account), ("bet", goInt64 r.Bet)]

def BlockInfo.toDoc (b : BlockInfo) : Doc :=
  [("height", goInt b.Height), ("time", goInt64 b.Time)]

def Bet.toDoc (b : Bet) : Doc :=
  [("account", .str b.Account), ("luckynumber", goInt b.LuckyNumber),
   ("betamount", goInt b.BetAmount), ("bettime", goInt64 b.BetTime),
   ("clientip", .str b.ClientIp)]

/-- Unmarshalling of an integer field: the number stored, zero when the field
is absent or not a number. -/
def Doc.intField (d : Doc) (k : String) : Int := ((d.get k).bind Value.num?).getD 0

/-- Unmarshalling of a string field: empty when absent or not a string. -/
def Doc.strField (d : Doc) (k : String) : String :=
  match d.get k with
  | some (.str s) => s
  | _ => ""

def Result.ofDoc (d : Doc) : Result :=
  { Round := d.intField "round", Height := d.intField "height",
    LuckyNumber := d.intField "luckynumber", Total := d.intField "total",
    Win := d.intField "win", Award := d.intField "award", Time := d.intField "time" }

def Reward.ofDoc (d : Doc) : LuckyBet.Reward :=
  { Round := d.intField "round", Account := d.strField "account",
    Reward := d.intField "reward", Times := d.intField "times" }

def BlockInfo.ofDoc (d : Doc) : BlockInfo :=
  { Height := d.intField "height", Time := d.intField "time" }

def Bet.ofDoc (d : Doc) : Bet :=
  { Account := d.strField "account", LuckyNumber := d.intField "luckynumber",
    BetAmount := d.intField "betamount", BetTime := d.intField "bettime",
    ClientIp := d.strField "clientip" }

/-! ## `Database` -/

/-- The `Database` struct: the four collections, the `Todays1stRound` field of
the embedded `todayWatcher`, and the leaderboard cache (`top10` is `none` for
a nil slice). -/
structure Database where
  Results : Collection
  Rewards : Collection
  BlockInfo : Collection
  Bets : Collection
  Todays1stRound : Int
  top10 : Option (List Top10)
  lastTopQueryTime : Int
  deriving DecidableEq, Repr

/-- What `NewDatabase` builds over the given collections. -/
def NewDatabase (results rewards blocks bets : Collection) : Database :=
  { Results := results, Rewards := rewards, BlockInfo := blocks, Bets := bets,
    Todays1stRound := 0, top10 := none, lastTopQueryTime := 0 }

def robotAddressList : List String := ["23hJissnRLwMcGFcPwyDxDfj9FaB5Z7LkY13n5TGZ2gL5"]

/-- The dynamic argument of `Insert(i interface{})`: a pointer to one of the
five record types, or a value of any other type. -/
inductive Item
  | result (r : Result)
  | reward (r : LuckyBet.Reward)
  | record (r : Record)
  | blockInfo (b : BlockInfo)
  | bet (b : Bet)
  | other
  deriving DecidableEq, Repr

/-- `Database.Insert`: dispatches on the type; the error of the collection
insert is dropped in every case and `nil` (`none`) is returned. -/
def Database.Insert (d : Database) (i : Item) : Option String × Database :=
  match i with
  | .result r => (none, { d with Results := (d.Results.Insert r.toDoc).2 })
  | .reward r => (none, { d with Rewards := (d.Rewards.Insert r.toDoc).2 })
  | .record r => (none, { d with Rewards := (d.Rewards.Insert r.toDoc).2 })
  | .blockInfo b => (none, { d with BlockInfo := (d.BlockInfo.Insert b.toDoc).2 })
  | .bet b => (none, { d with Bets := (d.Bets.Insert b.toDoc).2 })
  | .other => (some "illegal type", d)

/-- `Database.QueryBet(address, bias, length)`. -/
def Database.QueryBet (d : Database) (address : String) (bias length : Int) :
    List Bet × Option String :=
  match ((((d.Bets.Find [("address", .eq (.str address))]).Sort "-bettime").Skip bias).Limit
      length).All with
  | .error e => ([], some e)
  | .ok docs => (docs.map Bet.ofDoc, none)

/-- `Database.QueryBetCount(address)`; the error is dropped, the count is 0 then. -/
def Database.QueryBetCount (d : Database) (address : String) : Int :=
  match (d.Bets.Find [("address", .eq (.str address))]).Count with
  | .error _ => 0
  | .ok n => n

/-- `Database.QueryTodays1stRound()`; `todayUnixNano` is `today().UnixNano()`. -/
def Database.QueryTodays1stRound (d : Database) (todayUnixNano : Int) : Int :=
  match ((d.Results.Find [("time", .ops [("$get", goInt64 todayUnixNano)])]).Sort "time").One with
  | .error _ => -1
  | .ok doc => (Result.ofDoc doc).Round

/-! ## The cached leaderboard, `QueryTop10` -/

/-- How a Go call ends: it returns a value, or a run-time panic unwinds it. -/
inductive Outcome (α : Type)
  | returned (a : α)
  | panicked (msg : String)
  deriving DecidableEq, Repr

/-- The unchecked type assertion `x.(string)`. -/
def assertString : Option Value → Outcome String
  | some (.str s) => .returned s
  | _ => .panicked "interface conversion: interface is not string"

/-- The unchecked type assertion `x.(int64)`. -/
def assertInt64 : Option Value → Outcome Int
  | some (.int64 n) => .returned n
  | _ => .panicked "interface conversion: interface is not int64"

/-- The unchecked type assertion `x.(int)`. -/
def assertInt : Option Value → Outcome Int
  | some (.int n) => .returned n
  | _ => .panicked "interface conversion: interface is not int"

/-- Nanoseconds in `time.Minute`. -/
def Minute : Int := 60 * 1000000000

/-- The pipeline literal `queryPip` of `QueryTop10`. -/
def queryPip (d : Database) : List Stage :=
  [ .Match [("round", .ops [("$gte", goInt d.Todays1stRound)]),
            ("account", .ops [("$nin", .strs robotAddressList)])],
    .Group "account" [("totalWinIOST", "reward"), ("totalBet", "bet"), ("totalWinTimes", "times")],
    .AddFields "netEarn" "totalWinIOST" "totalBet",
    .Sort "netEarn" (-1),
    .Limit 10 ]

/-- The body of the loop over `it`: one `Top10` from one result document, the
fields asserted in the order of the struct literal. -/
def decodeRow (mr : Doc) : Outcome Top10 :=
  match assertString (mr.get "_id") with
  | .panicked e => .panicked e
  | .returned id =>
    match assertInt64 (mr.get "totalWinIOST") with
    | .panicked e => .panicked e
    | .returned win =>
      match assertInt64 (mr.get "totalBet") with
      | .panicked e => .panicked e
      | .returned bet =>
        match assertInt (mr.get "totalWinTimes") with
        | .panicked e => .panicked e
        | .returned times =>
          match assertInt64 (mr.get "netEarn") with
          | .panicked e => .panicked e
          | .returned net =>
            .returned { Id := id, TotalWinIOST := win, TotalBet := bet, TotalWinTimes := times,
                        NetEarn := net }

/-- The loop `for _, m := range it`, appending to `top10DayBetWinners`. -/
def decodeRows : List Doc → List Top10 → Outcome (List Top10)
  | [], acc => .returned acc
  | m :: rest, acc =>
    match decodeRow m with
    | .panicked e => .panicked e
    | .returned t => decodeRows rest (acc ++ [t])

/-- What one call of `QueryTop10` does: how it ends (the returned sequence and
error), the `Database` it leaves, and the aggregation pipelines it sent to the
rewards collection. -/
structure Top10Call where
  outcome : Outcome (List Top10 × Option String)
  db : Database
  issued : List (List Stage)
  deriving DecidableEq, Repr

/-- The documents `All(&it)` leaves in `it`: none when the aggregation failed. -/
def rowsOf : Except String (List Doc) → List Doc
  | .ok docs => docs
  | .error _ => []

/-- The error `All(&it)` returns, `none` for nil. -/
def errorOf : Except String (List Doc) → Option String
  | .ok _ => none
  | .error e => some e

/-- The part of `QueryTop10` after the freshness test (from `queryPip` to the
final `return`): run the aggregation, convert the rows, write the cache.
`clockStore` is the clock read by `time.Now()`.  A panic in the loop leaves the
cache as it was. -/
def Database.top10Compute (d : Database) (clockStore : Int) : Top10Call :=
  let it := rowsOf (d.Rewards.PipeAll (queryPip d))
  let err := errorOf (d.Rewards.PipeAll (queryPip d))
  match decodeRows it [] with
  | .panicked e => { outcome := .panicked e, db := d, issued := [queryPip d] }
  | .returned top10DayBetWinners =>
    { outcome := .returned (top10DayBetWinners, err),
      db := { d with top10 := some top10DayBetWinners, lastTopQueryTime := clockStore },
      issued := [queryPip d] }

/-- `Database.QueryTop10(t)`.  `clockCheck` is the clock read by `time.Since`
in the freshness test, `clockStore` the clock read by `time.Now()` when the
cache is written. -/
def Database.QueryTop10 (d : Database) (_t : Int) (clockCheck clockStore : Int) : Top10Call :=
  match d.top10 with
  | some cached =>
    if clockCheck - d.lastTopQueryTime < 2 * Minute then
      { outcome := .returned (cached, none), db := d, issued := [] }
    else d.top10Compute clockStore
  | none => d.top10Compute clockStore

/-! ## The benchmark handler, `LuckyBetBenchMark` -/

/-- The fields of `luckyBetHandler` that `LuckyBetBenchMark` reads or writes. -/
structure luckyBetHandler where
  account : String
  betAmount : String
  luckyNumber : String
  privKey : String
  gcaptcha : String
  remoteip : String
  betAmountInt : Int
  luckyNumberInt : Int
  txHash : List Nat
  txHashEncoded : String
  deriving DecidableEq, Repr

/-- The methods of `luckyBetHandler` and the error values defined elsewhere in
the handler package.  A method gets the handler and returns its result with the
handler as it leaves it (`checkArgs` fills `betAmountInt` and `luckyNumberInt`,
`send` and `pullResult` the transaction hash). -/
structure Collaborators where
  checkArgs : luckyBetHandler → Bool × luckyBetHandler
  checkBalance : luckyBetHandler → Int × luckyBetHandler
  send : luckyBetHandler → Bool × luckyBetHandler
  pullResult : luckyBetHandler → Bool × luckyBetHandler
  ErrInvalidInput : String
  ErrInsufficientBalance : String
  ErrOutOfRetryTime : String
  ErrOutOfCheckTxHash : String

/-- The request as the handler reads it: `ctx.PostArgs().Peek` and
`ctx.Request.Header.Peek`. -/
structure RequestCtx where
  postArg : String → String
  header : String → String

/-- The two response structs, built positionally in the source:
`luckyBetFail{Ret, Msg, balance}` and `luckyBet{Ret, message or hash, txHashEncoded}`. -/
inductive Response
  | luckyBetFail (Ret : Int) (Msg : String) (Balance : Int)
  | luckyBet (Ret : Int) (Msg : String) (TxHash : String)
  deriving DecidableEq, Repr

/-- The return code of a response. -/
def Response.Ret : Response → Int
  | .luckyBetFail r _ _ => r
  | .luckyBet r _ _ => r

/-- What the handler does, in order: calls of the handler methods, the Store
insert, and the JSON objects encoded into the response body. -/
inductive Event
  | setContentType
  | setHeader (key value : String)
  | setStatusCode (code : Int)
  | checkArgs
  | checkBalance
  | send
  | pullResult
  | insert (b : Bet)
  | encode (r : Response)
  deriving DecidableEq, Repr

/-- One byte as two lower-case hex digits. -/
def hexByte (b : Nat) : List Char := [Nat.digitChar (b / 16 % 16), Nat.digitChar (b % 16)]

/-- Go's `hex.EncodeToString`. -/
def hexEncodeToString (bs : List Nat) : String := String.mk (bs.flatMap hexByte)

/-- The handler value built from the request at the top of `LuckyBetBenchMark`;
the fields not listed in the literal are zero. -/
def newHandler (ctx : RequestCtx) : luckyBetHandler :=
  { account := ctx.postArg "address", betAmount := ctx.postArg "betAmount",
    luckyNumber := ctx.postArg "luckyNumber", privKey := ctx.postArg "privKey",
    gcaptcha := ctx.postArg "gcaptcha", remoteip := ctx.header "Iost_Remote_Addr",
    betAmountInt := 0, luckyNumberInt := 0, txHash := [], txHashEncoded := "" }

/-- What the handler does before it looks at the arguments: the three response
header calls. -/
def headerEvents : List Event :=
  [.setContentType, .setHeader "Access-Control-Allow-Origin" "*", .setStatusCode 200]

/-- The record `ba` the handler builds from its fields; `nowUnix` is
`time.Now().Unix()`. -/
def handlerBet (lbr : luckyBetHandler) (nowUnix : Int) : Bet :=
  { Account := lbr.account, LuckyNumber := lbr.luckyNumberInt, BetAmount := lbr.betAmountInt,
    BetTime := nowUnix, ClientIp := lbr.remoteip }

/-- `LuckyBetBenchMark(ctx, _)`, run against the global database `D`;
`nowUnix` is `time.Now().Unix()`.  Returns the trace of what it did and the
database it leaves.  The `if !lbr.pullResult()` block has no `return`: control
goes on to the insert and to the final encode. -/
def LuckyBetBenchMark (m : Collaborators) (ctx : RequestCtx) (nowUnix : Int) (D : Database) :
    List Event × Database :=
  let args := m.checkArgs (newHandler ctx)
  let t1 := headerEvents ++ [.checkArgs]
  if !args.1 then
    (t1 ++ [.encode (.luckyBetFail 1 m.ErrInvalidInput 0)], D)
  else
    let bal := m.checkBalance args.2
    let balance := bal.1
    let t2 := t1 ++ [.checkBalance]
    if balance < bal.2.betAmountInt then
      (t2 ++ [.encode (.luckyBetFail 6 m.ErrInsufficientBalance balance)], D)
    else
      let sent := m.send bal.2
      let t3 := t2 ++ [.send]
      if !sent.1 then
        (t3 ++ [.encode (.luckyBet 3 m.ErrOutOfRetryTime "")], D)
      else
        let pulled := m.pullResult sent.2
        let lbr := pulled.2
        let t4 := t3 ++ [.pullResult]
        let t5 :=
          if !pulled.1 then t4 ++ [.encode (.luckyBet 4 m.ErrOutOfCheckTxHash lbr.txHashEncoded)]
          else t4
        let ba : Bet := handlerBet lbr nowUnix
        (t5 ++ [.insert ba, .encode (.luckyBet 0 (hexEncodeToString lbr.txHash) lbr.txHashEncoded)],
          (D.Insert (.bet ba)).2)

/-- The JSON objects written to the response body, in order. -/
def responses (trace : List Event) : List Response :=
  trace.filterMap fun e => match e with
    | .encode r => some r
    | _ => none

/-- The Bets handed to `D.Insert`, in order. -/
def inserts (trace : List Event) : List Bet :=
  trace.filterMap fun e => match e with
    | .insert b => some b
    | _ => none

/-! ## Concrete inputs used below -/

/-- A healthy collection with no document. -/
def emptyCollection : Collection := { docs := [], fault := none }

/-- A collection whose every operation fails. -/
def downCollection : Collection := { docs := [], fault := some "EOF" }

/-- The database right after `NewDatabase` over empty collections. -/
def emptyDatabase : Database :=
  NewDatabase emptyCollection emptyCollection emptyCollection emptyCollection

/-- A database whose bets collection is unreachable. -/
def betsDownDatabase : Database :=
  NewDatabase emptyCollection emptyCollection emptyCollection downCollection

/-- A database whose rewards collection is unreachable. -/
def rewardsDownDatabase : Database :=
  NewDatabase emptyCollection downCollection emptyCollection emptyCollection

/-- Handler methods with fixed results: validation parses stake 10 and lucky
number 7, the balance is `balance`, `send` reports `sent` and leaves the
transaction hash `ab01` / `enc`, `pullResult` reports `pulled`. -/
def fixedCollaborators (argsOk : Bool) (balance : Int) (sent pulled : Bool) : Collaborators :=
  { checkArgs := fun l => (argsOk, { l with betAmountInt := 10, luckyNumberInt := 7 })
    checkBalance := fun l => (balance, l)
    send := fun l => (sent, { l with txHash := [171, 1], txHashEncoded := "enc" })
    pullResult := fun l => (pulled, l)
    ErrInvalidInput := "invalid input"
    ErrInsufficientBalance := "insufficient balance"
    ErrOutOfRetryTime := "out of retry time"
    ErrOutOfCheckTxHash := "out of check tx hash" }

/-- A request from account `A` at client address `10.0.0.1`. -/
def requestA : RequestCtx :=
  { postArg := fun k => if k = "address" then "A" else if k = "betAmount" then "10"
      else if k = "luckyNumber" then "7" else ""
    header := fun _ => "10.0.0.1" }

/-- The Bet the handler builds for `requestA` at time 99. -/
def betA : Bet :=
  { Account := "A", LuckyNumber := 7, BetAmount := 10, BetTime := 99, ClientIp := "10.0.0.1" }

/-- The same `Database` value later on: collections and day boundary are
whatever they have become, the two cache fields are kept. -/
def Database.withStore (d : Database) (results rewards blockInfo bets : Collection)
    (todays1stRound : Int) : Database :=
  { d with Results := results, Rewards := rewards, BlockInfo := blockInfo, Bets := bets,
           Todays1stRound := todays1stRound }

/-- The store state built from the empty database by `Insert` of the given
Bets, in order. -/
def insertBets (bets : List Bet) : Database :=
  bets.foldl (fun D b => (D.Insert (.bet b)).2) emptyDatabase

/-- The claim's query, from its words: the Bets of account `A`, by bet time
descending, the first `offset` skipped, at most `limit` returned. -/
def referenceQueryBet (bets : List Bet) (A : String) (offset limit : Nat) : List Bet :=
  (((bets.filter (fun b => decide (b.Account = A))).insertionSort
      (fun a b => b.BetTime ≤ a.BetTime)).drop offset).take limit

/-- The claim's count, from its words: the number of inserted Bets of account `A`. -/
def referenceBetCount (bets : List Bet) (A : String) : Int :=
  (bets.filter (fun b => decide (b.Account = A))).length

/-- The claim's round boundary, from its words: the smallest round among the
Round Results settled at or after the start of the day, `-1` when there is none. -/
def referenceTodays1stRound (results : List Result) (todayUnixNano : Int) : Int :=
  match (results.filter (fun r => decide (todayUnixNano ≤ r.Time))).map (fun r => r.Round) with
  | [] => -1
  | r :: rs => rs.foldl min r

/-- What `Insert` puts into the rewards collection: a `Reward` or a `Record`. -/
inductive RewardsEntry
  | reward (r : LuckyBet.Reward)
  | record (r : Record)
  deriving DecidableEq, Repr

def RewardsEntry.round : RewardsEntry → Int
  | .reward r => r.Round
  | .record r => r.Round

def RewardsEntry.account : RewardsEntry → String
  | .reward r => r.Account
  | .record r => r.Account

def RewardsEntry.rewardAmount : RewardsEntry → Int
  | .reward r => r.Reward
  | .record _ => 0

def RewardsEntry.betAmount : RewardsEntry → Int
  | .reward _ => 0
  | .record r => r.Bet

def RewardsEntry.times : RewardsEntry → Int
  | .reward r => r.Times
  | .record _ => 0

def RewardsEntry.toItem : RewardsEntry → Item
  | .reward r => .reward r
  | .record r => .record r

/-- The store state built from the empty database by `Insert` of the given
rewards-collection entries, in order. -/
def insertEntries (es : List RewardsEntry) : Database :=
  es.foldl (fun D e => (D.Insert e.toItem).2) emptyDatabase

/-- The distinct strings of a list, each at its first occurrence. -/
def distinctAccounts : List String → List String
  | [] => []
  | a :: as => a :: (distinctAccounts as).filter (fun x => decide (x ≠ a))

/-- The claim's leaderboard, from its words: take the records with round at
least `todays1stRound` and account not in `robotAddressList`, group them by
account summing reward, bet and times, set netEarn to total reward minus total
bet, order by netEarn descending, keep at most 10. -/
def referenceLeaderboard (es : List RewardsEntry) (todays1stRound : Int) : List Top10 :=
  let kept := es.filter fun e =>
    decide (todays1stRound ≤ e.round) && decide (e.account ∉ robotAddressList)
  let groups := (distinctAccounts (kept.map RewardsEntry.account)).map fun a =>
    let members := kept.filter (fun e => decide (e.account = a))
    let win := (members.map RewardsEntry.rewardAmount).sum
    let bet := (members.map RewardsEntry.betAmount).sum
    { Id := a, TotalWinIOST := win, TotalBet := bet,
      TotalWinTimes := (members.map RewardsEntry.times).sum, NetEarn := win - bet : Top10 }
  (groups.insertionSort (fun x y => y.NetEarn ≤ x.NetEarn)).take 10

/-- The spec's example: X is given reward 100 and bet 40, Y reward 50 and bet
60, all in round 1. -/
def entriesXY : List RewardsEntry :=
  [.reward { Round := 1, Account := "X", Reward := 100, Times := 1 },
   .reward { Round := 1, Account := "Y", Reward := 50, Times := 1 },
   .record { Round := 1, Account := "X", Bet := 40 },
   .record { Round := 1, Account := "Y", Bet := 60 }]

/-- One winner X with no bet record in the window. -/
def entriesRewardOnly : List RewardsEntry :=
  [.reward { Round := 1, Account := "X", Reward := 100, Times := 1 }]

/-- Two accounts stored in the order X, Y, where Y earns more: X is given
reward 10 and bet 40, Y reward 90 and bet 60. -/
def entriesYX : List RewardsEntry :=
  [.reward { Round := 1, Account := "X", Reward := 10, Times := 1 },
   .record { Round := 1, Account := "X", Bet := 40 },
   .reward { Round := 1, Account := "Y", Reward := 90, Times := 2 },
   .record { Round := 1, Account := "Y", Bet := 60 }]

/-- The database after a first `QueryTop10` call computed the spec's example
and wrote the cache at clock 5. -/
def cachedXY : Database := ((insertEntries entriesXY).QueryTop10 0 0 5).db

/-- `cachedXY` later on, the rewards collection holding `es` by then. -/
def cachedXYOver (es : List RewardsEntry) : Database :=
  cachedXY.withStore emptyCollection (insertEntries es).Rewards emptyCollection emptyCollection 0

/-- A Round Result for round 5, settled at time 2000. -/
def resultRound5 : Result :=
  { Round := 5, Height := 50, LuckyNumber := 3, Total := 4, Win := 1, Award := 100, Time := 2000 }

/-! ## The benchmark handler -/

/-- C1, at a request whose transaction was sent and whose `pullResult` reported
failure: the handler still hands the Bet to the Store and the bets collection
holds it afterwards. -/
theorem LuckyBetBenchMark_inserts_without_confirmation :
    inserts (LuckyBetBenchMark (fixedCollaborators true 100 true false) requestA 99
      emptyDatabase).1 = [betA]
    ∧ (LuckyBetBenchMark (fixedCollaborators true 100 true false) requestA 99
      emptyDatabase).2.Bets.docs = [betA.toDoc] := by
  decide

/-- C2: a validated request whose balance is below the parsed stake gets the
single response `luckyBetFail 6` with the observed balance; `send`,
`pullResult` and the Store insert are not reached and the database is
untouched.  With the balance equal to the stake the handler goes on to `send`
and writes no `Ret 6` response. -/
theorem LuckyBetBenchMark_insufficient_balance (m : Collaborators) (ctx : RequestCtx)
    (nowUnix : Int) (D : Database) (hargs : (m.checkArgs (newHandler ctx)).1 = true) :
    ((m.checkBalance (m.checkArgs (newHandler ctx)).2).1
        < (m.checkBalance (m.checkArgs (newHandler ctx)).2).2.betAmountInt →
      responses (LuckyBetBenchMark m ctx nowUnix D).1
          = [.luckyBetFail 6 m.ErrInsufficientBalance
              (m.checkBalance (m.checkArgs (newHandler ctx)).2).1]
        ∧ Event.send ∉ (LuckyBetBenchMark m ctx nowUnix D).1
        ∧ Event.pullResult ∉ (LuckyBetBenchMark m ctx nowUnix D).1
        ∧ inserts (LuckyBetBenchMark m ctx nowUnix D).1 = []
        ∧ (LuckyBetBenchMark m ctx nowUnix D).2 = D)
    ∧ ((m.checkBalance (m.checkArgs (newHandler ctx)).2).1
        = (m.checkBalance (m.checkArgs (newHandler ctx)).2).2.betAmountInt →
      Event.send ∈ (LuckyBetBenchMark m ctx nowUnix D).1
        ∧ ∀ r ∈ responses (LuckyBetBenchMark m ctx nowUnix D).1, r.Ret ≠ 6) := by
  constructor
  · intro hlt
    simp [LuckyBetBenchMark, hargs, hlt, responses, inserts, headerEvents]
  · intro heq
    have hnlt : ¬ (m.checkBalance (m.checkArgs (newHandler ctx)).2).1
        < (m.checkBalance (m.checkArgs (newHandler ctx)).2).2.betAmountInt := by
      rw [heq]; exact lt_irrefl _
    cases hs : (m.send (m.checkBalance (m.checkArgs (newHandler ctx)).2).2).1 <;>
      cases hp : (m.pullResult (m.send (m.checkBalance (m.checkArgs (newHandler ctx)).2).2).2).1 <;>
      simp [LuckyBetBenchMark, hargs, hnlt, hs, hp, responses, headerEvents, Response.Ret]

/-- Witness of C2: balance 3 against stake 10 is rejected before `send`;
balance 10 against stake 10 reaches `send`. -/
theorem LuckyBetBenchMark_insufficient_balance_witness :
    (responses (LuckyBetBenchMark (fixedCollaborators true 3 true true) requestA 99
        emptyDatabase).1 = [.luckyBetFail 6 "insufficient balance" 3]
      ∧ Event.send ∉ (LuckyBetBenchMark (fixedCollaborators true 3 true true) requestA 99
        emptyDatabase).1)
    ∧ Event.send ∈ (LuckyBetBenchMark (fixedCollaborators true 10 true true) requestA 99
        emptyDatabase).1 :=
  ⟨⟨((LuckyBetBenchMark_insufficient_balance (fixedCollaborators true 3 true true) requestA 99
      emptyDatabase rfl).1 (by decide)).1,
    ((LuckyBetBenchMark_insufficient_balance (fixedCollaborators true 3 true true) requestA 99
      emptyDatabase rfl).1 (by decide)).2.1⟩,
   ((LuckyBetBenchMark_insufficient_balance (fixedCollaborators true 10 true true) requestA 99
      emptyDatabase rfl).2 (by decide)).1⟩

/-- C3: when validation and the balance check pass and `send` reports failure,
the single response is `luckyBet 3` with the retry error and an empty hash;
`pullResult` is not called, nothing is inserted and the database is untouched. -/
theorem LuckyBetBenchMark_send_exhausted (m : Collaborators) (ctx : RequestCtx)
    (nowUnix : Int) (D : Database) (hargs : (m.checkArgs (newHandler ctx)).1 = true)
    (hbal : ¬ (m.checkBalance (m.checkArgs (newHandler ctx)).2).1
        < (m.checkBalance (m.checkArgs (newHandler ctx)).2).2.betAmountInt)
    (hsend : (m.send (m.checkBalance (m.checkArgs (newHandler ctx)).2).2).1 = false) :
    responses (LuckyBetBenchMark m ctx nowUnix D).1 = [.luckyBet 3 m.ErrOutOfRetryTime ""]
      ∧ Event.pullResult ∉ (LuckyBetBenchMark m ctx nowUnix D).1
      ∧ inserts (LuckyBetBenchMark m ctx nowUnix D).1 = []
      ∧ (LuckyBetBenchMark m ctx nowUnix D).2 = D := by
  simp [LuckyBetBenchMark, hargs, hbal, hsend, responses, inserts, headerEvents]

/-- Witness of C3: balance 100 against stake 10 and a `send` that fails. -/
theorem LuckyBetBenchMark_send_exhausted_witness :
    responses (LuckyBetBenchMark (fixedCollaborators true 100 false true) requestA 99
        emptyDatabase).1 = [.luckyBet 3 "out of retry time" ""]
      ∧ Event.pullResult ∉ (LuckyBetBenchMark (fixedCollaborators true 100 false true) requestA 99
        emptyDatabase).1
      ∧ inserts (LuckyBetBenchMark (fixedCollaborators true 100 false true) requestA 99
        emptyDatabase).1 = []
      ∧ (LuckyBetBenchMark (fixedCollaborators true 100 false true) requestA 99
        emptyDatabase).2 = emptyDatabase :=
  LuckyBetBenchMark_send_exhausted (fixedCollaborators true 100 false true) requestA 99
    emptyDatabase rfl (by decide) rfl

/-- C4, at a request whose transaction was sent and whose `pullResult` reported
failure: the response body holds two results, the `Ret 4` failure with the
encoded hash followed by the `Ret 0` success. -/
theorem LuckyBetBenchMark_timeout_also_reports_success :
    responses (LuckyBetBenchMark (fixedCollaborators true 100 true false) requestA 99
      emptyDatabase).1
      = [.luckyBet 4 "out of check tx hash" "enc", .luckyBet 0 "ab01" "enc"] := by
  decide

/-- C5, as stated, fails: with the bets collection unreachable the driver
insert returns an error, `Database.Insert` returns nil all the same, and the
handler writes the same trace, ending in the plain `Ret 0` success, as it does
over a healthy store. -/
theorem Insert_error_dropped_example :
    (betsDownDatabase.Bets.Insert betA.toDoc).1 = some "EOF"
    ∧ (betsDownDatabase.Insert (.bet betA)).1 = none
    ∧ responses (LuckyBetBenchMark (fixedCollaborators true 100 true true) requestA 99
        betsDownDatabase).1 = [.luckyBet 0 "ab01" "enc"]
    ∧ (LuckyBetBenchMark (fixedCollaborators true 100 true true) requestA 99 betsDownDatabase).1
        = (LuckyBetBenchMark (fixedCollaborators true 100 true true) requestA 99
            emptyDatabase).1 := by
  decide

/-- C5 as amended: for a confirmed bet (validation, balance check, `send` and
`pullResult` all succeed) and any store, healthy or not, `Database.Insert`
returns nil for the Bet, the bets collection is whatever the driver insert
left, and the handler's only response is the plain `Ret 0` success with the
hex hash and the encoded hash: the outcome of the insert is not surfaced. -/
theorem LuckyBetBenchMark_insert_outcome_not_surfaced (m : Collaborators) (ctx : RequestCtx)
    (nowUnix : Int) (D : Database) (lbr : luckyBetHandler)
    (hargs : (m.checkArgs (newHandler ctx)).1 = true)
    (hbal : ¬ (m.checkBalance (m.checkArgs (newHandler ctx)).2).1
        < (m.checkBalance (m.checkArgs (newHandler ctx)).2).2.betAmountInt)
    (hsend : (m.send (m.checkBalance (m.checkArgs (newHandler ctx)).2).2).1 = true)
    (hpull : m.pullResult (m.send (m.checkBalance (m.checkArgs (newHandler ctx)).2).2).2
        = (true, lbr)) :
    (D.Insert (.bet (handlerBet lbr nowUnix))).1 = none
    ∧ responses (LuckyBetBenchMark m ctx nowUnix D).1
        = [.luckyBet 0 (hexEncodeToString lbr.txHash) lbr.txHashEncoded]
    ∧ (LuckyBetBenchMark m ctx nowUnix D).2.Bets
        = (D.Bets.Insert (handlerBet lbr nowUnix).toDoc).2 := by
  simp [LuckyBetBenchMark, hargs, hbal, hsend, hpull, responses, headerEvents, Database.Insert]

/-- Witness of the amended C5: a confirmed bet over an unreachable bets
collection. -/
theorem LuckyBetBenchMark_insert_outcome_not_surfaced_witness :
    (betsDownDatabase.Insert (.bet betA)).1 = none
    ∧ responses (LuckyBetBenchMark (fixedCollaborators true 100 true true) requestA 99
        betsDownDatabase).1 = [.luckyBet 0 (hexEncodeToString [171, 1]) "enc"]
    ∧ (LuckyBetBenchMark (fixedCollaborators true 100 true true) requestA 99
        betsDownDatabase).2.Bets = (betsDownDatabase.Bets.Insert betA.toDoc).2 :=
  LuckyBetBenchMark_insert_outcome_not_surfaced (fixedCollaborators true 100 true true) requestA
    99 betsDownDatabase
    { account := "A", betAmount := "10", luckyNumber := "7", privKey := "", gcaptcha := "",
      remoteip := "10.0.0.1", betAmountInt := 10, luckyNumberInt := 7, txHash := [171, 1],
      txHashEncoded := "enc" }
    rfl (by decide) rfl rfl

/-! ## Store queries -/

/-- A marshalled Bet has no `address` field, so the filter of `QueryBet` and
`QueryBetCount` rejects it. -/
theorem holds_address_toDoc (address : String) (b : Bet) :
    Filter.holds [("address", .eq (.str address))] b.toDoc = false := by
  rfl

/-- The filter of `QueryBet` selects nothing among marshalled Bets. -/
theorem filter_address_toDoc (address : String) (bets : List Bet) :
    (bets.map Bet.toDoc).filter (Filter.holds [("address", .eq (.str address))]) = [] := by
  induction bets with
  | nil => rfl
  | cons b bs ih => simp [List.filter, holds_address_toDoc, ih]

/-- Inserting Bets into a database with a healthy bets collection appends their
documents, in order. -/
theorem foldl_Insert_bets (bets : List Bet) (D : Database) (h : D.Bets.fault = none) :
    (bets.foldl (fun D b => (D.Insert (.bet b)).2) D).Bets
      = { docs := D.Bets.docs ++ bets.map Bet.toDoc, fault := none } := by
  induction bets generalizing D with
  | nil =>
    cases hB : D.Bets with
    | mk docs fault => simp [hB] at h; simp [hB, h]
  | cons b bs ih =>
    have hstep : ((D.Insert (.bet b)).2).Bets
        = { docs := D.Bets.docs ++ [b.toDoc], fault := none } := by
      simp [Database.Insert, Collection.Insert, h]
    rw [List.foldl_cons, ih _ (by rw [hstep]), hstep]
    simp

/-- The bets collection of a store built by `Insert` of Bets. -/
theorem insertBets_Bets (bets : List Bet) :
    (insertBets bets).Bets = { docs := bets.map Bet.toDoc, fault := none } := by
  unfold insertBets
  rw [foldl_Insert_bets bets emptyDatabase rfl]
  rfl

/-- C8, on every store built by `Insert` of Bets: `QueryBet` returns no Bet
and `QueryBetCount` returns 0, whatever the account, offset and limit.  At the
store holding the one Bet of account `A`, the claim's query is that Bet and
its count is 1, while the code returns the empty sequence and 0; the same
query on the stored key `account` does return the Bet. -/
theorem QueryBet_finds_no_inserted_bet :
    (∀ (bets : List Bet) (address : String) (bias length : Int),
      ((insertBets bets).QueryBet address bias length).1 = []
        ∧ (insertBets bets).QueryBetCount address = 0)
    ∧ (insertBets [betA]).QueryBet "A" 0 10 = ([], none)
    ∧ (insertBets [betA]).QueryBetCount "A" = 0
    ∧ referenceQueryBet [betA] "A" 0 10 = [betA]
    ∧ referenceBetCount [betA] "A" = 1
    ∧ (rowsOf (((((insertBets [betA]).Bets.Find [("account", .eq (.str "A"))]).Sort
        "-bettime").Skip 0).Limit 10).All).map Bet.ofDoc = [betA] := by
  refine ⟨?_, by decide, by decide, by decide, by decide, by decide⟩
  intro bets address bias length
  constructor
  · simp only [Database.QueryBet, Query.All, Query.selected, Query.Limit, Query.Skip, Query.Sort,
      Collection.Find, insertBets_Bets, filter_address_toDoc]
    have hc : Filter.check [("address", Cond.eq (Value.str address))] = .ok () := rfl
    simp only [hc]
    have hs : applySort (some "-bettime") ([] : List Doc) = [] := by decide
    rw [hs]
    by_cases hb : int32 bias < 0 <;> by_cases hl : wireLimit length = 0 <;> simp [hb, hl]
  · simp only [Database.QueryBetCount, Query.Count, Query.All, Query.selected, Collection.Find,
      insertBets_Bets, filter_address_toDoc]
    have hc : Filter.check [("address", Cond.eq (Value.str address))] = .ok () := rfl
    simp only [hc]
    simp [applySort]

/-- The operator name `$get` is not a query operator. -/
theorem evalOp_get (arg : Value) (field : Option Value) :
    evalOp "$get" arg field = .error "unknown operator: $get" := by
  rfl

/-- C9: `QueryTodays1stRound` returns `-1` on every store and for every day
start, because the server rejects the filter operator `$get`.  At the store
holding a round 5 settled at 2000, with the day starting at 1000, the claim's
boundary is 5 and the code returns `-1`; the same query with the operator
`$gte` does select round 5. -/
theorem QueryTodays1stRound_always_minus_one :
    (∀ (d : Database) (todayUnixNano : Int), d.QueryTodays1stRound todayUnixNano = -1)
    ∧ (emptyDatabase.Insert (.result resultRound5)).2.Results.docs = [resultRound5.toDoc]
    ∧ (emptyDatabase.Insert (.result resultRound5)).2.QueryTodays1stRound 1000 = -1
    ∧ referenceTodays1stRound [resultRound5] 1000 = 5
    ∧ (rowsOf (((emptyDatabase.Insert (.result resultRound5)).2.Results.Find
        [("time", .ops [("$gte", goInt64 1000)])]).Sort "time").All).map Result.ofDoc
      = [resultRound5] := by
  refine ⟨?_, by decide, by decide, by decide, by decide⟩
  intro d today
  have hc : Filter.check [("time", Cond.ops [("$get", goInt64 today)])]
      = .error "unknown operator: $get" := rfl
  simp only [Database.QueryTodays1stRound, Query.One, Query.All, Query.selected, Query.Sort,
    Collection.Find, hc]
  cases d.Results.fault <;> rfl

/-! ## The cached leaderboard -/

/-- With no cached sequence, or a stale one, `QueryTop10` takes the miss path. -/
theorem QueryTop10_miss (d : Database) (t clockCheck clockStore : Int)
    (hmiss : d.top10 = none ∨ 2 * Minute ≤ clockCheck - d.lastTopQueryTime) :
    d.QueryTop10 t clockCheck clockStore = d.top10Compute clockStore := by
  unfold Database.QueryTop10
  cases htop : d.top10 with
  | none => rfl
  | some cached =>
    rcases hmiss with h | h
    · simp [htop] at h
    · simp [not_lt.mpr h]

/-- With a cached sequence younger than two minutes, `QueryTop10` returns it
and touches nothing. -/
theorem QueryTop10_hit (d : Database) (t clockCheck clockStore : Int) (cached : List Top10)
    (htop : d.top10 = some cached) (hfresh : clockCheck - d.lastTopQueryTime < 2 * Minute) :
    d.QueryTop10 t clockCheck clockStore
      = { outcome := .returned (cached, none), db := d, issued := [] } := by
  unfold Database.QueryTop10
  simp [htop, hfresh]

/-- The miss path always sends the pipeline once. -/
theorem top10Compute_issued (d : Database) (clockStore : Int) :
    (d.top10Compute clockStore).issued = [queryPip d] := by
  unfold Database.top10Compute
  cases h : decodeRows (rowsOf (d.Rewards.PipeAll (queryPip d))) [] <;> simp [h]

/-- When the miss path returns, the cache holds the returned sequence and the
time of the write. -/
theorem top10Compute_returned (d : Database) (clockStore : Int) (top : List Top10)
    (err : Option String) (hret : (d.top10Compute clockStore).outcome = .returned (top, err)) :
    (d.top10Compute clockStore).db
      = { d with top10 := some top, lastTopQueryTime := clockStore } := by
  unfold Database.top10Compute at hret ⊢
  cases hrows : decodeRows (rowsOf (d.Rewards.PipeAll (queryPip d))) [] with
  | panicked e => simp [hrows] at hret
  | returned tops =>
    simp only [hrows, Outcome.returned.injEq, Prod.mk.injEq] at hret
    simp only [hrows, hret.1]

/-- When the miss path returns, the returned sequence is the conversion of the
rows the aggregation delivered and the returned error is the aggregation's. -/
theorem top10Compute_returned_rows (d : Database) (clockStore : Int) (top : List Top10)
    (err : Option String) (hret : (d.top10Compute clockStore).outcome = .returned (top, err)) :
    decodeRows (rowsOf (d.Rewards.PipeAll (queryPip d))) [] = .returned top
      ∧ err = errorOf (d.Rewards.PipeAll (queryPip d)) := by
  unfold Database.top10Compute at hret
  cases hrows : decodeRows (rowsOf (d.Rewards.PipeAll (queryPip d))) [] with
  | panicked e => simp [hrows] at hret
  | returned tops =>
    simp only [hrows, Outcome.returned.injEq, Prod.mk.injEq] at hret
    exact ⟨by rw [hret.1], hret.2.symm⟩

/-- When the row conversion panics, the miss path has sent the pipeline and
leaves the database, cache included, as it was. -/
theorem top10Compute_panicked (d : Database) (clockStore : Int) (e : String)
    (hrows : decodeRows (rowsOf (d.Rewards.PipeAll (queryPip d))) [] = .panicked e) :
    d.top10Compute clockStore = { outcome := .panicked e, db := d, issued := [queryPip d] } := by
  unfold Database.top10Compute
  simp only [hrows]

/-- C6, at the store holding one `Reward` of X and no `Record`: the `$sum` of
the absent `bet` field is the int32 `0`, the assertion `.(int64)` on
`totalBet` panics, and no leaderboard is returned, while the claim's
leaderboard there is the single entry of X.  At the spec's example (X reward
100 / bet 40, Y reward 50 / bet 60) the code returns the claim's leaderboard,
X before Y. -/
theorem QueryTop10_panics_without_bet_record :
    rowsOf ((insertEntries entriesRewardOnly).Rewards.PipeAll
        (queryPip (insertEntries entriesRewardOnly)))
      = [[("_id", .str "X"), ("totalWinIOST", .int64 100), ("totalBet", .int 0),
          ("totalWinTimes", .int 1), ("netEarn", .int64 100)]]
    ∧ ((insertEntries entriesRewardOnly).QueryTop10 0 0 5).outcome
      = .panicked "interface conversion: interface is not int64"
    ∧ referenceLeaderboard entriesRewardOnly 0
      = [{ Id := "X", TotalWinIOST := 100, TotalBet := 0, TotalWinTimes := 1, NetEarn := 100 }]
    ∧ ((insertEntries entriesXY).QueryTop10 0 0 5).outcome
      = .returned (referenceLeaderboard entriesXY 0, none)
    ∧ referenceLeaderboard entriesXY 0
      = [{ Id := "X", TotalWinIOST := 100, TotalBet := 40, TotalWinTimes := 1, NetEarn := 60 },
         { Id := "Y", TotalWinIOST := 50, TotalBet := 60, TotalWinTimes := 1, NetEarn := -10 }] := by
  decide

/-- Whenever `QueryTop10` returns a sequence, hit or miss, the cache holds that
sequence afterwards. -/
theorem QueryTop10_returned_cached (d : Database) (t c s : Int) (top : List Top10)
    (err : Option String) (hret : (d.QueryTop10 t c s).outcome = .returned (top, err)) :
    (d.QueryTop10 t c s).db.top10 = some top := by
  by_cases hmiss : d.top10 = none ∨ 2 * Minute ≤ c - d.lastTopQueryTime
  · rw [QueryTop10_miss d t c s hmiss] at hret ⊢
    rw [top10Compute_returned d s top err hret]
  · rw [not_or, not_le] at hmiss
    obtain ⟨cached, hc⟩ := Option.ne_none_iff_exists'.mp hmiss.1
    rw [QueryTop10_hit d t c s cached hc hmiss.2] at hret ⊢
    simp only [Outcome.returned.injEq, Prod.mk.injEq] at hret
    rw [hc, hret.1]

/-- The cache window, for calls that return.  Let a first call return `top`.
If it computed (cache empty or stale) it sent the pipeline once and the cache
timestamp is the clock `s1` of its write.  A second call whose freshness test
reads a clock less than two minutes after the cache timestamp returns `top`
with a nil error, sends no pipeline and leaves the database as it is, whatever
the collections and the day boundary have become.  A second call two minutes
or more after the cache timestamp sends the pipeline again; when it returns,
what it returns is the conversion of the rows of that aggregation over the
collection as it is by then, and the cache holds that sequence and the clock
`s2` of the write. -/
theorem QueryTop10_window_when_returning (d : Database) (t1 c1 s1 : Int) (top : List Top10)
    (err : Option String)
    (hret : (d.QueryTop10 t1 c1 s1).outcome = .returned (top, err))
    (results rewards blockInfo bets : Collection) (round t2 c2 s2 : Int) :
    (d.top10 = none ∨ 2 * Minute ≤ c1 - d.lastTopQueryTime →
        (d.QueryTop10 t1 c1 s1).issued = [queryPip d]
        ∧ (d.QueryTop10 t1 c1 s1).db.lastTopQueryTime = s1)
    ∧ (c2 - (d.QueryTop10 t1 c1 s1).db.lastTopQueryTime < 2 * Minute →
        ((d.QueryTop10 t1 c1 s1).db.withStore results rewards blockInfo bets round).QueryTop10
            t2 c2 s2
          = { outcome := .returned (top, none),
              db := (d.QueryTop10 t1 c1 s1).db.withStore results rewards blockInfo bets round,
              issued := [] })
    ∧ (2 * Minute ≤ c2 - (d.QueryTop10 t1 c1 s1).db.lastTopQueryTime →
        (((d.QueryTop10 t1 c1 s1).db.withStore results rewards blockInfo bets round).QueryTop10
            t2 c2 s2).issued
          = [queryPip ((d.QueryTop10 t1 c1 s1).db.withStore results rewards blockInfo bets round)]
        ∧ ∀ (top2 : List Top10) (err2 : Option String),
          (((d.QueryTop10 t1 c1 s1).db.withStore results rewards blockInfo bets round).QueryTop10
              t2 c2 s2).outcome = .returned (top2, err2) →
          decodeRows (rowsOf (rewards.PipeAll (queryPip
              ((d.QueryTop10 t1 c1 s1).db.withStore results rewards blockInfo bets round)))) []
            = .returned top2
          ∧ (((d.QueryTop10 t1 c1 s1).db.withStore results rewards blockInfo bets round).QueryTop10
              t2 c2 s2).db.top10 = some top2
          ∧ (((d.QueryTop10 t1 c1 s1).db.withStore results rewards blockInfo bets round).QueryTop10
              t2 c2 s2).db.lastTopQueryTime = s2) := by
  have hcached := QueryTop10_returned_cached d t1 c1 s1 top err hret
  refine ⟨?_, ?_, ?_⟩
  · intro hmiss
    rw [QueryTop10_miss d t1 c1 s1 hmiss] at hret ⊢
    rw [top10Compute_returned d s1 top err hret]
    exact ⟨top10Compute_issued d s1, rfl⟩
  · intro hfresh
    exact QueryTop10_hit _ t2 c2 s2 top hcached hfresh
  · intro hstale
    have hm : ((d.QueryTop10 t1 c1 s1).db.withStore results rewards blockInfo bets round).top10
          = none
        ∨ 2 * Minute ≤ c2 - ((d.QueryTop10 t1 c1 s1).db.withStore results rewards blockInfo bets
            round).lastTopQueryTime := Or.inr hstale
    rw [QueryTop10_miss _ t2 c2 s2 hm]
    refine ⟨top10Compute_issued _ s2, ?_⟩
    intro top2 err2 h2
    refine ⟨(top10Compute_returned_rows _ s2 top2 err2 h2).1, ?_⟩
    rw [top10Compute_returned _ s2 top2 err2 h2]
    exact ⟨rfl, rfl⟩

/-- C7, at a cache written at clock 5 with the spec's example (X before Y).
Ninety seconds later, whatever the rewards collection holds, the call returns
the cached sequence and sends nothing.  Exactly two minutes after the write,
over a collection holding X (net -30) stored before Y (net 30), the call sends
the pipeline, returns Y before X and caches that with the new clock.  But
exactly two minutes after the write, over a collection holding one `Reward` of
X and no `Record`, the call sends the pipeline and panics in the row
conversion: the cache still holds the old sequence and the old timestamp 5,
where the claim has it replaced by the leaderboard of that collection, the
single entry of X. -/
theorem QueryTop10_stale_call_panics_keeps_old_cache :
    (cachedXY.top10 = some (referenceLeaderboard entriesXY 0) ∧ cachedXY.lastTopQueryTime = 5)
    ∧ (cachedXYOver entriesRewardOnly).QueryTop10 0 90000000005 90000000006
        = { outcome := .returned (referenceLeaderboard entriesXY 0, none),
            db := cachedXYOver entriesRewardOnly, issued := [] }
    ∧ (cachedXYOver entriesYX).QueryTop10 0 120000000005 120000000006
        = { outcome := .returned (referenceLeaderboard entriesYX 0, none),
            db := { cachedXYOver entriesYX with
                    top10 := some (referenceLeaderboard entriesYX 0),
                    lastTopQueryTime := 120000000006 },
            issued := [queryPip (cachedXYOver entriesYX)] }
    ∧ referenceLeaderboard entriesYX 0
        = [{ Id := "Y", TotalWinIOST := 90, TotalBet := 60, TotalWinTimes := 2, NetEarn := 30 },
           { Id := "X", TotalWinIOST := 10, TotalBet := 40, TotalWinTimes := 1, NetEarn := -30 }]
    ∧ (cachedXYOver entriesRewardOnly).QueryTop10 0 120000000005 120000000006
        = { outcome := .panicked "interface conversion: interface is not int64",
            db := cachedXYOver entriesRewardOnly,
            issued := [queryPip (cachedXYOver entriesRewardOnly)] }
    ∧ (cachedXYOver entriesRewardOnly).top10 = some (referenceLeaderboard entriesXY 0)
    ∧ (cachedXYOver entriesRewardOnly).lastTopQueryTime = 5
    ∧ referenceLeaderboard entriesRewardOnly 0
        = [{ Id := "X", TotalWinIOST := 100, TotalBet := 0, TotalWinTimes := 1, NetEarn := 100 }]
    ∧ referenceLeaderboard entriesRewardOnly 0 ≠ referenceLeaderboard entriesXY 0 := by
  decide

/-- C10: when the cache is empty or stale and the aggregation fails with `e`,
the call returns the empty sequence with `e`, having sent the pipeline once,
and leaves the cache holding the empty non-nil sequence and the clock `s1` of
the write.  A later call whose freshness test reads a clock less than two
minutes after `s1` returns the empty sequence with a nil error, sends no
pipeline and leaves the database as it is, whatever the collections have
become. -/
theorem QueryTop10_caches_failed_aggregation (d : Database) (t1 c1 s1 : Int) (e : String)
    (hmiss : d.top10 = none ∨ 2 * Minute ≤ c1 - d.lastTopQueryTime)
    (hfail : d.Rewards.PipeAll (queryPip d) = .error e)
    (results rewards blockInfo bets : Collection) (round t2 c2 s2 : Int)
    (hfresh : c2 - s1 < 2 * Minute) :
    d.QueryTop10 t1 c1 s1
      = { outcome := .returned ([], some e),
          db := { d with top10 := some [], lastTopQueryTime := s1 },
          issued := [queryPip d] }
    ∧ ((d.QueryTop10 t1 c1 s1).db.withStore results rewards blockInfo bets round).QueryTop10
          t2 c2 s2
        = { outcome := .returned ([], none),
            db := (d.QueryTop10 t1 c1 s1).db.withStore results rewards blockInfo bets round,
            issued := [] } := by
  have h1 : d.QueryTop10 t1 c1 s1
      = { outcome := .returned ([], some e),
          db := { d with top10 := some [], lastTopQueryTime := s1 },
          issued := [queryPip d] } := by
    rw [QueryTop10_miss d t1 c1 s1 hmiss]
    simp [Database.top10Compute, hfail, decodeRows, rowsOf, errorOf]
  refine ⟨h1, ?_⟩
  rw [h1]
  exact QueryTop10_hit _ t2 c2 s2 [] rfl hfresh

/-- Witness of C10: the rewards collection is unreachable at the first call
(clock 5); a call ninety seconds later, the collection healthy and holding the
spec's example by then, still returns the empty sequence with a nil error. -/
theorem QueryTop10_caches_failed_aggregation_witness :
    rewardsDownDatabase.QueryTop10 0 0 5
      = { outcome := .returned ([], some "EOF"),
          db := { rewardsDownDatabase with top10 := some [], lastTopQueryTime := 5 },
          issued := [queryPip rewardsDownDatabase] }
    ∧ ((rewardsDownDatabase.QueryTop10 0 0 5).db.withStore emptyCollection
          (insertEntries entriesXY).Rewards emptyCollection emptyCollection 0).QueryTop10
          0 90000000005 90000000006
        = { outcome := .returned ([], none),
            db := (rewardsDownDatabase.QueryTop10 0 0 5).db.withStore emptyCollection
              (insertEntries entriesXY).Rewards emptyCollection emptyCollection 0,
            issued := [] } :=
  QueryTop10_caches_failed_aggregation rewardsDownDatabase 0 0 5 "EOF" (Or.inl rfl) rfl
    emptyCollection (insertEntries entriesXY).Rewards emptyCollection emptyCollection 0 0
    90000000005 90000000006 (by decide)

end LuckyBet
